import Mathlib

/-!
Verification of the OT-2 10X serial dilution protocol script
(`Serial_Dilutions/Variable Mix Speed/ot-2_fast_10x_serial_dilution.py`).

The script has three phases, modelled here as pure functions:

1. A module-level guard: if `instances == 6 and filled_columns > 10` it
   prints an error and calls `sys.exit()` (which raises `SystemExit` with
   value `None`, hence process exit status 0).
2. Layout selection inside `run`: `how_many` maps the `instances` integer
   to an attribute name of the `switch` class; the chosen method loads
   plates and tipracks by cumulative fallthrough (`six` calls `five`,
   `five` calls `four`, ..., down to `one`), appending the loaded handles
   to the lists `dilutionplate_10X` and `tiprack_10X`; the `default`
   method calls `sys.exit()` (again exit status 0).
3. The command loop: for each instance a mix-only tip cycle on column 0,
   then for each column index `j` in `range(filled_columns - 1)` a
   transfer tip cycle: aspirate from column `j`, dispense into column
   `j + 1`, mix with `rate=mix_rate` and no target well.

Wells are modelled as (plate index, column index) pairs, standing for
`dilutionplate_10X[i].columns()[j][0]`.  The two labware lists record the
deck slot numbers passed to `protocol.load_labware`, in append order.
-/

/-- Deck-slot lists built by `switch.one`: tiprack in slot 8, plate in
slot 9.  First component: plate slots of `dilutionplate_10X`; second:
tiprack slots of `tiprack_10X`, both in append (registration) order. -/
def switch_one : List Nat × List Nat := ([9], [8])

/-- `switch.two`: tiprack slot 10, plate slot 11, then falls through to
`switch.one`; the new handles are appended before the recursive call, so
they precede the entries of `switch_one` in the lists. -/
def switch_two : List Nat × List Nat := (11 :: switch_one.1, 10 :: switch_one.2)

/-- `switch.three`: tiprack slot 4, plate slot 7, then `switch.two`. -/
def switch_three : List Nat × List Nat := (7 :: switch_two.1, 4 :: switch_two.2)

/-- `switch.four`: tiprack slot 6, plate slot 5, then `switch.three`. -/
def switch_four : List Nat × List Nat := (5 :: switch_three.1, 6 :: switch_three.2)

/-- `switch.five`: tiprack slot 2, plate slot 3, then `switch.four`. -/
def switch_five : List Nat × List Nat := (3 :: switch_four.1, 2 :: switch_four.2)

/-- `switch.six`: loads only a plate, in slot 1, then falls through to
`switch.five`.  No tiprack is loaded for the sixth instance: the deck has
11 usable slots (slot 12 is the trash), so six plates leave room for only
five tipracks. -/
def switch_six : List Nat × List Nat := (1 :: switch_five.1, switch_five.2)

/-- `how_many(num)` from the source: converts the `instances` integer to
the attribute name of the `switch` class, returning the sentinel string
for any value outside 1..6 (the source also prints an error message on
that branch; the print is recorded by `program` below). -/
def how_many (num : Int) : String :=
  if num = 6 then "six"
  else if num = 5 then "five"
  else if num = 4 then "four"
  else if num = 3 then "three"
  else if num = 2 then "two"
  else if num = 1 then "one"
  else "default"

/-- `getattr(switch, name)()`: dispatch on the attribute name.  The six
named methods produce the slot lists; `default` calls `sys.exit()`,
modelled as `none`. -/
def switchRun (s : String) : Option (List Nat × List Nat) :=
  if s = "six" then some switch_six
  else if s = "five" then some switch_five
  else if s = "four" then some switch_four
  else if s = "three" then some switch_three
  else if s = "two" then some switch_two
  else if s = "one" then some switch_one
  else none

/-- The (plate slots, tiprack slots) layout selected for instance count
`n`; the pair of empty lists on the exit branch, where nothing loads. -/
def layout (n : Int) : List Nat × List Nat := (switchRun (how_many n)).getD ([], [])

/-- The ordered list of (plate-slot, tiprack-slot) bindings for count
`n`: the two source lists `dilutionplate_10X` and `tiprack_10X` zipped
positionally. -/
def pairsOf (n : Int) : List (Nat × Nat) := ((layout n).1).zip ((layout n).2)

/-- `dilution_volume = 20` (uL), from the Protocol Parameters Section. -/
def dilution_volume : Nat := 20

/-- `mix_repetitions = 15`, from the Protocol Parameters Section. -/
def mix_repetitions : Nat := 15

/-- `mix_volume = 20` (uL), from the Protocol Parameters Section. -/
def mix_volume : Nat := 20

/-- A pipette command issued to `right_pipette`.  A well is a
(plate index, column index) pair for `dilutionplate_10X[i].columns()[j][0]`.
`mix` carries its optional target well and optional explicit `rate`
keyword argument (absent means the vendor default rate). -/
inductive Command where
  | pickUpTip : Command
  | dropTip : Command
  | aspirate (volume : Nat) (well : Nat × Nat) : Command
  | dispense (volume : Nat) (well : Nat × Nat) : Command
  | mix (repetitions : Nat) (volume : Nat) (target : Option (Nat × Nat)) (rate : Option ℚ) : Command
deriving DecidableEq, Repr

/-- The mix-only tip cycle at the head of each instance loop iteration:
pick up a tip, mix column 0 of plate `i` at default rate, drop the tip. -/
def mixGroup (i : Nat) : List Command :=
  [Command.pickUpTip,
   Command.mix mix_repetitions mix_volume (some (i, 0)) none,
   Command.dropTip]

/-- One iteration of the inner `for j in range(filled_columns - 1)` loop:
pick up a tip, aspirate from column `j`, dispense into column `j + 1`,
mix with `rate=mix_rate` and no target well, drop the tip. -/
def transferStep (r : ℚ) (i j : Nat) : List Command :=
  [Command.pickUpTip,
   Command.aspirate dilution_volume (i, j),
   Command.dispense dilution_volume (i, j + 1),
   Command.mix mix_repetitions mix_volume none (some r),
   Command.dropTip]

/-- The commands of one outer-loop iteration for plate `i`: the mix-only
cycle, then the transfer cycles.  Python's `range(filled_columns - 1)` is
empty when `filled_columns - 1 <= 0`, which `Int.toNat` reproduces. -/
def instanceCmds (r : ℚ) (F : Int) (i : Nat) : List Command :=
  mixGroup i ++ (List.range (F - 1).toNat).flatMap (transferStep r i)

/-- The full command sequence of the Commands Section:
`for i in range(instances)` over the per-instance commands. -/
def runCommands (instances : Int) (F : Int) (r : ℚ) : List Command :=
  (List.range instances.toNat).flatMap (instanceCmds r F)

/-- The module-level error message for too many filled columns. -/
def errTooMany : String :=
  "ERROR: Too many columns need to be filled for the number of tipracks available. Program exiting."

/-- The `how_many` error message for an out-of-range instance count. -/
def errBadCount : String :=
  "ERROR: Must set instances variable as integer between 1 and 6 inclusive. Program exiting."

/-- The observable outcome of one execution of the script: messages
printed, the `sys.exit` status if the process exited early (`none` means
it ran to completion), the plate and tiprack slots loaded via
`load_labware`, whether `load_instrument` ran, and the pipette commands
issued. -/
structure Outcome where
  printed : List String
  exitCode : Option Nat
  plates : List Nat
  tipracks : List Nat
  instrument : Bool
  commands : List Command
deriving DecidableEq, Repr

/-- The whole script, parametrised by the two configuration integers and
the `mix_rate` constant: the module-level guard first (printing and
`sys.exit()`, status 0), then `run`: layout dispatch (where the
`default` branch prints in `how_many` and exits with status 0 before any
labware loads), then `load_instrument`, then the command loop. -/
def program (instances : Int) (filled_columns : Int) (mix_rate : ℚ) : Outcome :=
  if instances = 6 ∧ filled_columns > 10 then
    ⟨[errTooMany], some 0, [], [], false, []⟩
  else
    match switchRun (how_many instances) with
    | some L =>
        ⟨[], none, L.1, L.2, true, runCommands instances filled_columns mix_rate⟩
    | none => ⟨[errBadCount], some 0, [], [], false, []⟩

/-- State of the tip-discipline automaton: no tip held, tip held (with a
flag recording whether an aspirate already happened in this cycle), or a
violation seen. -/
inductive TState where
  | outside : TState
  | inside (aspirated : Bool) : TState
  | dead : TState
deriving DecidableEq, Repr

/-- One step of the tip-discipline automaton: tips strictly alternate
pick-up/drop starting with pick-up, every other command happens while a
tip is held, and at most one aspirate happens per tip cycle. -/
def tipStep : TState → Command → TState
  | TState.outside, Command.pickUpTip => TState.inside false
  | TState.outside, _ => TState.dead
  | TState.inside _, Command.dropTip => TState.outside
  | TState.inside _, Command.pickUpTip => TState.dead
  | TState.inside a, Command.aspirate _ _ =>
      if a then TState.dead else TState.inside true
  | TState.inside a, _ => TState.inside a
  | TState.dead, _ => TState.dead

/-- Run the tip-discipline automaton over a command list. -/
def tipRun (l : List Command) : TState := l.foldl tipStep TState.outside

/-- A command list observes tip discipline when the automaton ends
outside a tip cycle without ever hitting the dead state. -/
def tipDiscipline (l : List Command) : Prop := tipRun l = TState.outside

instance (l : List Command) : Decidable (tipDiscipline l) := by
  unfold tipDiscipline
  infer_instance

/-- State of the aspirate-adjacency automaton: either no aspirate is
pending, or the previous command was an aspirate of volume `v` from
column `j - 1` of plate `i` and the next command must be the matching
dispense of `v` into well `(i, j)`. -/
inductive AState where
  | ok : AState
  | expect (v i j : Nat) : AState
  | dead : AState
deriving DecidableEq, Repr

/-- One step of the aspirate-adjacency automaton: every aspirate must be
immediately followed by a dispense of the same volume into the next
column of the same plate. -/
def aspStep : AState → Command → AState
  | AState.ok, Command.aspirate v w => AState.expect v w.1 (w.2 + 1)
  | AState.ok, _ => AState.ok
  | AState.expect v i j, Command.dispense u t =>
      if u = v ∧ t.1 = i ∧ t.2 = j then AState.ok else AState.dead
  | AState.expect _ _ _, _ => AState.dead
  | AState.dead, _ => AState.dead

/-- Run the aspirate-adjacency automaton over a command list. -/
def aspRun (l : List Command) : AState := l.foldl aspStep AState.ok

/-- A command list has the aspirate-adjacency property when the
automaton ends with no pending aspirate and never hit the dead state. -/
def aspAdjacent (l : List Command) : Prop := aspRun l = AState.ok

instance (l : List Command) : Decidable (aspAdjacent l) := by
  unfold aspAdjacent
  infer_instance

/-- Is the command a `pick_up_tip()`? -/
def isPickUp : Command → Bool
  | Command.pickUpTip => true
  | _ => false

/-- Is the command a `drop_tip()`? -/
def isDrop : Command → Bool
  | Command.dropTip => true
  | _ => false

/-- Is the command an `aspirate`? -/
def isAspirate : Command → Bool
  | Command.aspirate _ _ => true
  | _ => false

/-- Is the command a `dispense`? -/
def isDispense : Command → Bool
  | Command.dispense _ _ => true
  | _ => false

/-- Is the command a mix with an explicit target well (the mix-only
first-column call)? -/
def isTargetedMix : Command → Bool
  | Command.mix _ _ (some _) _ => true
  | _ => false

/-- Is the command a mix with an explicit `rate` keyword (the per-column
transfer mix)? -/
def isRatedMix : Command → Bool
  | Command.mix _ _ _ (some _) => true
  | _ => false

/-- Every mix in the script is one of exactly two shapes: targeted with
default rate (the first-column mix), or untargeted with an explicit rate
(the per-column mix).  Other commands pass trivially. -/
def mixShape : Command → Bool
  | Command.mix _ _ (some _) none => true
  | Command.mix _ _ none (some _) => true
  | Command.mix _ _ _ _ => false
  | _ => true

/-- Two commands are equal up to the `rate` argument of an untargeted
mix, with the rates being `r₁` on the left and `r₂` on the right. -/
def sameExceptRate (r₁ r₂ : ℚ) (c₁ c₂ : Command) : Prop :=
  c₁ = c₂ ∨ ∃ reps vol, c₁ = Command.mix reps vol none (some r₁) ∧
    c₂ = Command.mix reps vol none (some r₂)

/-- `switch` dispatch hits the `default` (exit) branch exactly for
instance counts outside 1..6. -/
lemma dispatch_none (n : Int) : switchRun (how_many n) = none ↔ ¬(1 ≤ n ∧ n ≤ 6) := by
  unfold how_many
  split_ifs with h1 h2 h3 h4 h5 h6 <;> simp [switchRun] <;> omega

/-- On an out-of-range instance count, the script prints the `how_many`
error and exits (status 0) with nothing loaded and no commands. -/
lemma program_invalid (n F : Int) (r : ℚ) (h : ¬(1 ≤ n ∧ n ≤ 6)) :
    program n F r = ⟨[errBadCount], some 0, [], [], false, []⟩ := by
  have h6 : ¬(n = 6 ∧ 10 < F) := by omega
  have hd : switchRun (how_many n) = none := (dispatch_none n).mpr h
  unfold program
  rw [if_neg h6, hd]

/-- On an in-range instance count that does not trip the module-level
guard, the script runs to completion: it loads the selected layout, the
pipette, and emits the full command sequence. -/
lemma program_valid (n F : Int) (r : ℚ) (h1 : 1 ≤ n) (h2 : n ≤ 6) (h3 : ¬(n = 6 ∧ 10 < F)) :
    program n F r = ⟨[], none, (layout n).1, (layout n).2, true, runCommands n F r⟩ := by
  have hd : ¬ switchRun (how_many n) = none := by
    rw [dispatch_none]
    intro hcon
    exact hcon ⟨h1, h2⟩
  cases e : switchRun (how_many n) with
  | none => exact absurd e hd
  | some L =>
      have hl : layout n = L := by rw [layout, e]; rfl
      unfold program
      rw [if_neg h3, e, hl]

/-- The tip automaton crosses a mix-only cycle back to `outside`. -/
lemma tipRun_go_mixGroup (i : Nat) :
    List.foldl tipStep TState.outside (mixGroup i) = TState.outside := rfl

/-- The tip automaton crosses one transfer cycle back to `outside`. -/
lemma tipRun_go_transfer (r : ℚ) (i j : Nat) :
    List.foldl tipStep TState.outside (transferStep r i j) = TState.outside := rfl

/-- The tip automaton crosses any run of transfer cycles. -/
lemma tipRun_go_flatMap (r : ℚ) (i : Nat) (L : List Nat) :
    List.foldl tipStep TState.outside (L.flatMap (transferStep r i)) = TState.outside := by
  induction L with
  | nil => rfl
  | cons x xs ih =>
      rw [List.flatMap_cons, List.foldl_append, tipRun_go_transfer]
      exact ih

/-- The tip automaton crosses one whole instance iteration. -/
lemma tipRun_go_instance (r : ℚ) (F : Int) (i : Nat) :
    List.foldl tipStep TState.outside (instanceCmds r F i) = TState.outside := by
  unfold instanceCmds
  rw [List.foldl_append, tipRun_go_mixGroup]
  exact tipRun_go_flatMap r i _

/-- The tip automaton crosses any run of instance iterations. -/
lemma tipRun_go_run (L : List Nat) (r : ℚ) (F : Int) :
    List.foldl tipStep TState.outside (L.flatMap (instanceCmds r F)) = TState.outside := by
  induction L with
  | nil => rfl
  | cons x xs ih =>
      rw [List.flatMap_cons, List.foldl_append, tipRun_go_instance]
      exact ih

/-- The pending dispense demanded by the aspirate automaton is satisfied
by the matching dispense command. -/
lemma aspStep_match (v i j : Nat) :
    aspStep (AState.expect v i j) (Command.dispense v (i, j)) = AState.ok := by
  show (if v = v ∧ i = i ∧ j = j then AState.ok else AState.dead) = AState.ok
  rw [if_pos ⟨rfl, rfl, rfl⟩]

/-- The aspirate automaton crosses a mix-only cycle staying `ok`. -/
lemma aspRun_go_mixGroup (i : Nat) :
    List.foldl aspStep AState.ok (mixGroup i) = AState.ok := rfl

/-- The aspirate automaton crosses one transfer cycle staying `ok`: the
aspirate from column `j` is immediately answered by the dispense of the
same volume into column `j + 1` of the same plate. -/
lemma aspRun_go_transfer (r : ℚ) (i j : Nat) :
    List.foldl aspStep AState.ok (transferStep r i j) = AState.ok := by
  have h := aspStep_match dilution_volume i (j + 1)
  show List.foldl aspStep
      (aspStep (AState.expect dilution_volume i (j + 1))
        (Command.dispense dilution_volume (i, j + 1)))
      [Command.mix mix_repetitions mix_volume none (some r), Command.dropTip] = AState.ok
  rw [h]
  rfl

/-- The aspirate automaton crosses any run of transfer cycles. -/
lemma aspRun_go_flatMap (r : ℚ) (i : Nat) (L : List Nat) :
    List.foldl aspStep AState.ok (L.flatMap (transferStep r i)) = AState.ok := by
  induction L with
  | nil => rfl
  | cons x xs ih =>
      rw [List.flatMap_cons, List.foldl_append, aspRun_go_transfer]
      exact ih

/-- The aspirate automaton crosses one whole instance iteration. -/
lemma aspRun_go_instance (r : ℚ) (F : Int) (i : Nat) :
    List.foldl aspStep AState.ok (instanceCmds r F i) = AState.ok := by
  unfold instanceCmds
  rw [List.foldl_append, aspRun_go_mixGroup]
  exact aspRun_go_flatMap r i _

/-- The aspirate automaton crosses any run of instance iterations. -/
lemma aspRun_go_run (L : List Nat) (r : ℚ) (F : Int) :
    List.foldl aspStep AState.ok (L.flatMap (instanceCmds r F)) = AState.ok := by
  induction L with
  | nil => rfl
  | cons x xs ih =>
      rw [List.flatMap_cons, List.foldl_append, aspRun_go_instance]
      exact ih

/-- A mix-only cycle is unchanged when only `mix_rate` changes. -/
lemma sameRate_mixGroup (r₁ r₂ : ℚ) (i : Nat) :
    List.Forall₂ (sameExceptRate r₁ r₂) (mixGroup i) (mixGroup i) :=
  List.Forall₂.cons (Or.inl rfl)
    (List.Forall₂.cons (Or.inl rfl)
      (List.Forall₂.cons (Or.inl rfl) List.Forall₂.nil))

/-- A transfer cycle changes only the rate of its untargeted mix when
only `mix_rate` changes. -/
lemma sameRate_transfer (r₁ r₂ : ℚ) (i j : Nat) :
    List.Forall₂ (sameExceptRate r₁ r₂) (transferStep r₁ i j) (transferStep r₂ i j) :=
  List.Forall₂.cons (Or.inl rfl)
    (List.Forall₂.cons (Or.inl rfl)
      (List.Forall₂.cons (Or.inl rfl)
        (List.Forall₂.cons (Or.inr ⟨mix_repetitions, mix_volume, rfl, rfl⟩)
          (List.Forall₂.cons (Or.inl rfl) List.Forall₂.nil))))

/-- Any run of transfer cycles changes only untargeted-mix rates. -/
lemma sameRate_flatMap (r₁ r₂ : ℚ) (i : Nat) (L : List Nat) :
    List.Forall₂ (sameExceptRate r₁ r₂)
      (L.flatMap (transferStep r₁ i)) (L.flatMap (transferStep r₂ i)) := by
  induction L with
  | nil => exact List.Forall₂.nil
  | cons x xs ih =>
      rw [List.flatMap_cons, List.flatMap_cons]
      exact List.rel_append (sameRate_transfer r₁ r₂ i x) ih

/-- One instance iteration changes only untargeted-mix rates. -/
lemma sameRate_instance (r₁ r₂ : ℚ) (F : Int) (i : Nat) :
    List.Forall₂ (sameExceptRate r₁ r₂) (instanceCmds r₁ F i) (instanceCmds r₂ F i) := by
  unfold instanceCmds
  exact List.rel_append (sameRate_mixGroup r₁ r₂ i) (sameRate_flatMap r₁ r₂ i _)

/-- Any run of instance iterations changes only untargeted-mix rates. -/
lemma sameRate_run (r₁ r₂ : ℚ) (F : Int) (L : List Nat) :
    List.Forall₂ (sameExceptRate r₁ r₂)
      (L.flatMap (instanceCmds r₁ F)) (L.flatMap (instanceCmds r₂ F)) := by
  induction L with
  | nil => exact List.Forall₂.nil
  | cons x xs ih =>
      rw [List.flatMap_cons, List.flatMap_cons]
      exact List.rel_append (sameRate_instance r₁ r₂ F x) ih

/-- Every command of one instance iteration has a well-shaped mix:
targeted mixes carry no explicit rate, rated mixes carry no target. -/
lemma mixShape_instance (r : ℚ) (F : Int) (i : Nat) :
    ∀ c ∈ instanceCmds r F i, mixShape c = true := by
  intro c hc
  unfold instanceCmds at hc
  rw [List.mem_append] at hc
  cases hc with
  | inl h =>
      simp only [mixGroup, List.mem_cons, List.not_mem_nil, or_false] at h
      rcases h with rfl | rfl | rfl <;> rfl
  | inr h =>
      rw [List.mem_flatMap] at h
      obtain ⟨j, _, hj⟩ := h
      simp only [transferStep, List.mem_cons, List.not_mem_nil, or_false] at hj
      rcases hj with rfl | rfl | rfl | rfl | rfl <;> rfl

/-- Every command of the whole sequence has a well-shaped mix. -/
lemma mixShape_run (n F : Int) (r : ℚ) :
    ∀ c ∈ runCommands n F r, mixShape c = true := by
  intro c hc
  unfold runCommands at hc
  rw [List.mem_flatMap] at hc
  obtain ⟨i, _, hi⟩ := hc
  exact mixShape_instance r F i c hi

/-- When the module-level guard trips (`instances == 6` and
`filled_columns > 10`), the script prints and exits (status 0) before
anything is loaded. -/
lemma program_guard (n F : Int) (r : ℚ) (h : n = 6 ∧ 10 < F) :
    program n F r = ⟨[errTooMany], some 0, [], [], false, []⟩ := by
  unfold program
  rw [if_pos h]

/-- No command of a mix-only cycle is an aspirate. -/
lemma countA_mixGroups (L : List Nat) :
    List.countP isAspirate (L.flatMap mixGroup) = 0 := by
  induction L with
  | nil => rfl
  | cons x xs ih =>
      rw [List.flatMap_cons, List.countP_append, ih]
      rfl

/-- No command of a mix-only cycle is a dispense. -/
lemma countD_mixGroups (L : List Nat) :
    List.countP isDispense (L.flatMap mixGroup) = 0 := by
  induction L with
  | nil => rfl
  | cons x xs ih =>
      rw [List.flatMap_cons, List.countP_append, ih]
      rfl

/-- C1 counterexample: at instance count 6 the layout does not load six
tipracks — `switch.six` loads a sixth plate (slot 1) but no sixth
tiprack, so only five tipracks are loaded and the claimed six
(plate-slot, tiprack-slot) pairs do not exist. -/
theorem c1_counterexample :
    ¬ ((layout 6).1.length = (6 : Int).toNat ∧ (layout 6).2.length = (6 : Int).toNat ∧
       ((layout 6).1 ++ (layout 6).2).Nodup) := by
  decide

/-- C1 amended: for every instance count N in 1..6 the layout loads
exactly N plates and exactly min N 5 tipracks (five tipracks at N = 6,
N tipracks otherwise), and no deck slot is used by more than one loaded
resource. -/
theorem c1_amended_layout_counts : ∀ n : Int, 1 ≤ n → n ≤ 6 →
    (layout n).1.length = n.toNat ∧ (layout n).2.length = min n.toNat 5 ∧
    ((layout n).1 ++ (layout n).2).Nodup := by
  intro n h1 h2
  interval_cases n <;> decide

/-- C1 witness: the amended statement evaluated at instance count 5. -/
theorem c1_amended_witness :
    (layout 5).1.length = (5 : Int).toNat ∧ (layout 5).2.length = min (5 : Int).toNat 5 ∧
    ((layout 5).1 ++ (layout 5).2).Nodup :=
  c1_amended_layout_counts 5 (by decide) (by decide)

/-- C2: in the command sequence of every run with instance count in
1..6, pick-ups and drops strictly alternate starting with a pick-up,
every aspirate, dispense and mix happens while a tip is held, and each
tip cycle contains at most one aspirate (each column transfer has its
own fresh tip). -/
theorem c2_fresh_tip_per_transfer : ∀ (n F : Int) (r : ℚ), 1 ≤ n → n ≤ 6 →
    tipDiscipline (runCommands n F r) ∧
    (runCommands n F r).head? = some Command.pickUpTip := by
  intro n F r h1 _
  constructor
  · unfold tipDiscipline tipRun runCommands
    exact tipRun_go_run _ r F
  · obtain ⟨m, hm⟩ : ∃ m, n.toNat = m + 1 := ⟨n.toNat - 1, by omega⟩
    unfold runCommands
    rw [hm, List.range_succ_eq_map, List.flatMap_cons]
    rfl

/-- C2 witness: tip discipline of the concrete run with three instances
and six filled columns. -/
theorem c2_witness :
    tipDiscipline (runCommands 3 6 1) ∧
    (runCommands 3 6 1).head? = some Command.pickUpTip :=
  c2_fresh_tip_per_transfer 3 6 1 (by decide) (by decide)

/-- C3 counterexample: instance count 6 is inside 1..6, yet with
`filled_columns = 11` the module-level guard halts the script with a
printed diagnostic before any command is issued — a second detected
error condition besides the out-of-range instance count. -/
theorem c3_counterexample :
    (program 6 11 1).exitCode = some 0 ∧ (program 6 11 1).printed = [errTooMany] ∧
    (program 6 11 1).commands = [] :=
  ⟨rfl, rfl, rfl⟩

/-- C3 amended: the script detects exactly two error conditions — an
instance count outside 1..6, and instance count 6 combined with more
than ten filled columns; it runs to completion (no halt, nothing
printed) exactly when neither holds. -/
theorem c3_amended_two_error_conditions : ∀ (n F : Int) (r : ℚ),
    ((program n F r).exitCode = none ↔ (1 ≤ n ∧ n ≤ 6) ∧ ¬(n = 6 ∧ 10 < F)) ∧
    ((program n F r).printed = [] ↔ (1 ≤ n ∧ n ≤ 6) ∧ ¬(n = 6 ∧ 10 < F)) := by
  intro n F r
  by_cases h6 : n = 6 ∧ 10 < F
  · rw [program_guard n F r h6]
    constructor
    · constructor
      · intro hcon
        exact Option.noConfusion hcon
      · intro hcon
        exact absurd h6 hcon.2
    · constructor
      · intro hcon
        exact List.noConfusion hcon
      · intro hcon
        exact absurd h6 hcon.2
  · by_cases hr : 1 ≤ n ∧ n ≤ 6
    · rw [program_valid n F r hr.1 hr.2 h6]
      constructor
      · constructor
        · intro _
          exact ⟨hr, h6⟩
        · intro _
          rfl
      · constructor
        · intro _
          exact ⟨hr, h6⟩
        · intro _
          rfl
    · rw [program_invalid n F r hr]
      constructor
      · constructor
        · intro hcon
          exact Option.noConfusion hcon
        · intro hcon
          exact absurd hcon.1 hr
      · constructor
        · intro hcon
          exact List.noConfusion hcon
        · intro hcon
          exact absurd hcon.1 hr

/-- C4 counterexample: at instance count 7 the script does print the
diagnostic, but `switch.default` calls `sys.exit()` with no argument,
so the recorded exit status is 0, not nonzero. -/
theorem c4_counterexample :
    (program 7 6 1).printed = [errBadCount] ∧ (program 7 6 1).exitCode = some 0 :=
  ⟨rfl, rfl⟩

/-- C4 amended: whenever the instance count is outside 1..6, the script
prints a human-readable diagnostic and terminates immediately via
`sys.exit()`, but with exit status 0 (a normal exit), not nonzero. -/
theorem c4_amended_diagnostic_exit_zero : ∀ (n F : Int) (r : ℚ), ¬(1 ≤ n ∧ n ≤ 6) →
    (program n F r).printed = [errBadCount] ∧ (program n F r).exitCode = some 0 := by
  intro n F r h
  rw [program_invalid n F r h]
  exact ⟨rfl, rfl⟩

/-- C4 witness: the amended statement evaluated at instance count 0. -/
theorem c4_amended_witness :
    (program 0 6 1).printed = [errBadCount] ∧ (program 0 6 1).exitCode = some 0 :=
  c4_amended_diagnostic_exit_zero 0 6 1 (by decide)

/-- C5 counterexample: the first entry of the two-instance layout is the
pair for instance 2 (plate slot 11, tiprack slot 10), not the
one-instance layout pair (plate slot 9, tiprack slot 8): new pairs are
prepended, so the first N - 1 entries do not reproduce layout N - 1. -/
theorem c5_counterexample :
    ¬ ((pairsOf 2).take ((2 : Int).toNat - 1) = pairsOf 1) := by
  decide

/-- C5 amended: the nesting runs from the end, not the front — for N in
2..5 the layout for N - 1 equals the layout for N with its first pair
dropped; going from five to six instances, one plate (slot 1) is
prepended and the tiprack list is unchanged (instance 6 has no tiprack
of its own). -/
theorem c5_amended_suffix_nesting :
    (pairsOf 2).drop 1 = pairsOf 1 ∧ (pairsOf 3).drop 1 = pairsOf 2 ∧
    (pairsOf 4).drop 1 = pairsOf 3 ∧ (pairsOf 5).drop 1 = pairsOf 4 ∧
    (layout 6).1 = 1 :: (layout 5).1 ∧ (layout 6).2 = (layout 5).2 := by
  decide

/-- C6: for instance count 0 and every value outside 1..6, the script
terminates before loading any labware or instrument and before issuing
any pipette command. -/
theorem c6_no_loads_outside_range : ∀ (n F : Int) (r : ℚ), ¬(1 ≤ n ∧ n ≤ 6) →
    (program n F r).plates = [] ∧ (program n F r).tipracks = [] ∧
    (program n F r).instrument = false ∧ (program n F r).commands = [] := by
  intro n F r h
  rw [program_invalid n F r h]
  exact ⟨rfl, rfl, rfl, rfl⟩

/-- C6 witness: the statement evaluated at instance count 0 (and at 9). -/
theorem c6_witness :
    (program 9 6 1).plates = [] ∧ (program 9 6 1).tipracks = [] ∧
    (program 9 6 1).instrument = false ∧ (program 9 6 1).commands = [] :=
  c6_no_loads_outside_range 9 6 1 (by decide)

/-- C7: the run with instance count 3 and six filled columns issues
exactly 3 targeted (mix-only) mixes, 15 aspirates, 15 dispenses, 15
rated per-column mixes, and 18 pick-up/drop cycles, all observing tip
discipline (each group inside its own pick-up/drop pair). -/
theorem c7_command_counts :
    (program 3 6 1).commands.countP isTargetedMix = 3 ∧
    (program 3 6 1).commands.countP isAspirate = 15 ∧
    (program 3 6 1).commands.countP isDispense = 15 ∧
    (program 3 6 1).commands.countP isRatedMix = 15 ∧
    (program 3 6 1).commands.countP isPickUp = 18 ∧
    (program 3 6 1).commands.countP isDrop = 18 ∧
    tipDiscipline (program 3 6 1).commands := by
  decide

/-- C8: in every execution, each aspirate is immediately followed by the
dispense of the same volume into the next column of the same plate; no
command of any kind comes between them. -/
theorem c8_aspirate_dispense_adjacent : ∀ (n F : Int) (r : ℚ),
    aspAdjacent ((program n F r).commands) := by
  intro n F r
  by_cases h6 : n = 6 ∧ 10 < F
  · rw [program_guard n F r h6]
    exact rfl
  · by_cases hr : 1 ≤ n ∧ n ≤ 6
    · rw [program_valid n F r hr.1 hr.2 h6]
      show List.foldl aspStep AState.ok ((List.range n.toNat).flatMap (instanceCmds r F)) =
        AState.ok
      exact aspRun_go_run _ r F
    · rw [program_invalid n F r hr]
      exact rfl

/-- C9: two executions differing only in `mix_rate` produce command
sequences that agree pointwise except for the rate argument of the
untargeted per-column mixes; moreover every mix in a run is either the
targeted first-column mix with default (absent) rate or the untargeted
per-column mix with an explicit rate. -/
theorem c9_mix_rate_frame_property : ∀ (n F : Int) (r₁ r₂ : ℚ),
    List.Forall₂ (sameExceptRate r₁ r₂) ((program n F r₁).commands)
      ((program n F r₂).commands) ∧
    (∀ c ∈ (program n F r₁).commands, mixShape c = true) := by
  intro n F r₁ r₂
  by_cases h6 : n = 6 ∧ 10 < F
  · rw [program_guard n F r₁ h6, program_guard n F r₂ h6]
    refine ⟨List.Forall₂.nil, ?_⟩
    intro c hc
    exact absurd hc (List.not_mem_nil c)
  · by_cases hr : 1 ≤ n ∧ n ≤ 6
    · rw [program_valid n F r₁ hr.1 hr.2 h6, program_valid n F r₂ hr.1 hr.2 h6]
      exact ⟨sameRate_run r₁ r₂ F _, mixShape_run n F r₁⟩
    · rw [program_invalid n F r₁ hr, program_invalid n F r₂ hr]
      refine ⟨List.Forall₂.nil, ?_⟩
      intro c hc
      exact absurd hc (List.not_mem_nil c)

/-- C10: for every valid instance count and any `filled_columns` at most
1 (including zero and negative values), the run reduces to one mix-only
tip cycle per instance — no aspirate, no dispense, no error, nothing
printed. -/
theorem c10_single_mix_when_no_columns : ∀ (n F : Int) (r : ℚ), 1 ≤ n → n ≤ 6 → F ≤ 1 →
    (program n F r).commands = (List.range n.toNat).flatMap mixGroup ∧
    (program n F r).commands.countP isAspirate = 0 ∧
    (program n F r).commands.countP isDispense = 0 ∧
    (program n F r).exitCode = none ∧ (program n F r).printed = [] := by
  intro n F r h1 h2 hF
  have h6 : ¬(n = 6 ∧ 10 < F) := by omega
  rw [program_valid n F r h1 h2 h6]
  have hz : (F - 1).toNat = 0 := by omega
  have hc : runCommands n F r = (List.range n.toNat).flatMap mixGroup := by
    unfold runCommands instanceCmds
    rw [hz]
    simp
  refine ⟨hc, ?_, ?_, rfl, rfl⟩
  · rw [hc]
    exact countA_mixGroups _
  · rw [hc]
    exact countD_mixGroups _

/-- C10 witness: the statement evaluated at three instances and zero
filled columns. -/
theorem c10_witness :
    (program 3 0 1).commands = (List.range (3 : Int).toNat).flatMap mixGroup ∧
    (program 3 0 1).commands.countP isAspirate = 0 ∧
    (program 3 0 1).commands.countP isDispense = 0 ∧
    (program 3 0 1).exitCode = none ∧ (program 3 0 1).printed = [] :=
  c10_single_mix_when_no_columns 3 0 1 (by decide) (by decide) (by decide)
